import Mathlib

/-!
# Certificate rotation planner — verification development

Shallow embedding of `pkg/capr/planner/certificaterotation.go`: the rotation
trigger (`shouldRotate`), the service relevance filter (`shouldRotateEntry`),
the plan composer (`rotateCertificatesPlan`) and the rotation orchestrator
(`rotateCertificates`), together with theorems about them.

External collaborators that are part of the repository but whose code is not in
this package (`generatePlanWithConfigFiles`, `findInitNode`, `assignAndCheckPlan`,
`pauseCAPICluster`, `generateManifestRemovalInstruction`, the role predicates,
`getArgValue` and the package-level constants) are modelled from the
specification, as documented on each definition.
-/

namespace CertRotation

/-- Desired rotation request (`rkev1.RotateCertificates`): a generation counter
and an optional list of service names (empty means every service). -/
structure RotateCertificates where
  generation : Int
  services : List String
deriving Repr, DecidableEq

/-- The spec fields of an `RKEControlPlane` that this package reads:
the optional rotation request and the kubernetes version string. -/
structure RKEControlPlaneSpec where
  rotateCertificates : Option RotateCertificates
  kubernetesVersion : String
deriving Repr, DecidableEq

/-- The status fields of an `RKEControlPlane` that this package reads and
writes: the `Initialized` flag and the last applied rotation generation. -/
structure RKEControlPlaneStatus where
  initialized : Bool
  certificateRotationGeneration : Int
deriving Repr, DecidableEq

/-- An `RKEControlPlane` object: spec plus status. -/
structure RKEControlPlane where
  spec : RKEControlPlaneSpec
  status : RKEControlPlaneStatus
deriving Repr, DecidableEq

/-- Modelled from the spec: a `NodeEntry` carries "a set of role flags
(etcd / control-plane / worker)"; the role predicates `isWorker`,
`isControlPlane`, `isEtcd` and `isOnlyWorker` used by this package live
outside it and are pure reads of those flags. -/
structure PlanEntry where
  worker : Bool
  controlPlane : Bool
  etcd : Bool
deriving Repr, DecidableEq

/-- Modelled from the spec: role predicate for the worker role flag. -/
def isWorker (entry : PlanEntry) : Bool := entry.worker

/-- Modelled from the spec: role predicate for the control-plane role flag. -/
def isControlPlane (entry : PlanEntry) : Bool := entry.controlPlane

/-- Modelled from the spec: role predicate for the etcd role flag. -/
def isEtcd (entry : PlanEntry) : Bool := entry.etcd

/-- Modelled from the spec: a "worker-only node" holds the worker role and
neither the etcd nor the control-plane role. -/
def isOnlyWorker (entry : PlanEntry) : Bool :=
  isWorker entry && !isEtcd entry && !isControlPlane entry

/-- The trigger `shouldRotate` — `true` if the cluster is ready and the generation is stale
(`certificaterotation.go:60-74`). -/
def shouldRotate (cp : RKEControlPlane) : Bool :=
  match cp.spec.rotateCertificates with
  | none => false
  | some rotation =>
    if cp.status.initialized != true then false
    else cp.status.certificateRotationGeneration != rotation.generation

/-- The services inserted into `relevantServices` for a worker entry
(`certificaterotation.go:257-264`). -/
def workerRelevantServices : List String :=
  ["rke2-server", "k3s-server", "api-server", "kubelet", "kube-proxy", "auth-proxy"]

/-- The services inserted into `relevantServices` for a control-plane entry
(`certificaterotation.go:266-279`). -/
def controlPlaneRelevantServices : List String :=
  ["rke2-server", "k3s-server", "api-server", "kubelet", "kube-proxy", "auth-proxy",
   "controller-manager", "scheduler", "rke2-controller", "k3s-controller", "admin",
   "cloud-controller"]

/-- The services inserted into `relevantServices` for an etcd entry
(`certificaterotation.go:281-286`). -/
def etcdRelevantServices : List String :=
  ["etcd", "kubelet", "k3s-server", "rke2-server"]

/-- The relevant-service set built by `shouldRotateEntry` from the entry's role
flags; the Go code inserts the same strings into a set, so membership in this
concatenation is membership in that set. -/
def relevantServices (entry : PlanEntry) : List String :=
  (if isWorker entry then workerRelevantServices else []) ++
  (if isControlPlane entry then controlPlaneRelevantServices else []) ++
  (if isEtcd entry then etcdRelevantServices else [])

/-- The relevance filter `shouldRotateEntry` returns true if the rotated services are applicable to
the entry's roles (`certificaterotation.go:250-295`). -/
def shouldRotateEntry (rotation : RotateCertificates) (entry : PlanEntry) : Bool :=
  if rotation.services.length = 0 then true
  else rotation.services.any (fun s => (relevantServices entry).contains s)

/-- The relevant-service set as the specification words it: worker roles imply
the server-runtime, api-server, kubelet, kube-proxy and auth-proxy services;
control-plane roles additionally imply controller-manager, scheduler,
runtime-controller, admin and cloud-controller; the etcd role implies etcd,
kubelet and the server-runtime services. Stated over the spec's service groups;
compared against the source-derived `relevantServices`. -/
def specServerRuntimeServices : List String := ["rke2-server", "k3s-server"]

/-- The spec's "runtime-controller" service group (one per runtime family). -/
def specRuntimeControllerServices : List String := ["rke2-controller", "k3s-controller"]

/-- Spec-worded relevant-service set for an entry (see
`specServerRuntimeServices`). -/
def specRelevantServices (entry : PlanEntry) : List String :=
  (if isWorker entry then
      specServerRuntimeServices ++ ["api-server", "kubelet", "kube-proxy", "auth-proxy"]
    else []) ++
  (if isControlPlane entry then
      specServerRuntimeServices ++ ["api-server", "kubelet", "kube-proxy", "auth-proxy"] ++
        ["controller-manager", "scheduler"] ++ specRuntimeControllerServices ++
        ["admin", "cloud-controller"]
    else []) ++
  (if isEtcd entry then ["etcd", "kubelet"] ++ specServerRuntimeServices else [])

lemma mem_relevantServices_iff_spec (entry : PlanEntry) (s : String) :
    s ∈ relevantServices entry ↔ s ∈ specRelevantServices entry := by
  cases entry with
  | mk w c e =>
    cases w <;> cases c <;> cases e <;>
      simp [relevantServices, specRelevantServices, isWorker, isControlPlane, isEtcd,
        workerRelevantServices, controlPlaneRelevantServices, etcdRelevantServices,
        specServerRuntimeServices, specRuntimeControllerServices] <;>
      tauto

/-- C1: `shouldRotate` is true iff a rotation request is present, the cluster's
`Initialized` status flag is true, and the persisted last-applied generation
differs from the requested generation; false in every other case. -/
theorem shouldRotate_iff (cp : RKEControlPlane) :
    shouldRotate cp = true ↔
      ∃ rotation, cp.spec.rotateCertificates = some rotation ∧
        cp.status.initialized = true ∧
        cp.status.certificateRotationGeneration ≠ rotation.generation := by
  unfold shouldRotate
  cases h : cp.spec.rotateCertificates with
  | none => simp
  | some rotation =>
    cases hin : cp.status.initialized <;>
      simp [hin, bne_iff_ne]

/-- C2: with an empty service list `shouldRotateEntry` is always true; with a
non-empty list it is true iff some requested service lies in the node's
role-derived relevant-service set as the specification describes that set
(so a non-empty list disjoint from the relevant set yields false). -/
theorem shouldRotateEntry_iff (rotation : RotateCertificates) (entry : PlanEntry) :
    shouldRotateEntry rotation entry = true ↔
      (rotation.services = [] ∨
        ∃ s ∈ rotation.services, s ∈ specRelevantServices entry) := by
  unfold shouldRotateEntry
  by_cases hs : rotation.services = []
  · simp [hs]
  · rw [if_neg (by simpa [List.length_eq_zero] using hs)]
    simp only [List.any_eq_true, hs, false_or]
    constructor
    · rintro ⟨s, hmem, hc⟩
      exact ⟨s, hmem, (mem_relevantServices_iff_spec entry s).mp
        (by simpa [List.contains, List.elem_iff] using hc)⟩
    · rintro ⟨s, hmem, hrel⟩
      exact ⟨s, hmem, by
        simpa [List.contains, List.elem_iff] using
          (mem_relevantServices_iff_spec entry s).mpr hrel⟩

lemma mem_ite_nil_mono {b1 b2 : Bool} (h : b1 = true → b2 = true) {l : List String}
    {s : String} (hs : s ∈ if b1 then l else []) : s ∈ if b2 then l else [] := by
  cases b1 with
  | false => simp at hs
  | true => rw [h rfl]; simpa using hs

lemma relevantServices_mono {e1 e2 : PlanEntry}
    (hw : e1.worker = true → e2.worker = true)
    (hc : e1.controlPlane = true → e2.controlPlane = true)
    (he : e1.etcd = true → e2.etcd = true)
    {s : String} (hs : s ∈ relevantServices e1) : s ∈ relevantServices e2 := by
  simp only [relevantServices, List.mem_append, isWorker, isControlPlane, isEtcd] at hs ⊢
  rcases hs with (h | h) | h
  · exact Or.inl (Or.inl (mem_ite_nil_mono hw h))
  · exact Or.inl (Or.inr (mem_ite_nil_mono hc h))
  · exact Or.inr (mem_ite_nil_mono he h)

/-- C10: `shouldRotateEntry` is monotone in the node's role flags — if it holds
for an entry, it holds for any entry with a superset of that entry's role
flags, because each role only adds services to the relevant-service set. -/
theorem shouldRotateEntry_mono (rotation : RotateCertificates) (e1 e2 : PlanEntry)
    (hw : e1.worker = true → e2.worker = true)
    (hc : e1.controlPlane = true → e2.controlPlane = true)
    (he : e1.etcd = true → e2.etcd = true)
    (h : shouldRotateEntry rotation e1 = true) :
    shouldRotateEntry rotation e2 = true := by
  unfold shouldRotateEntry at h ⊢
  by_cases hs : rotation.services.length = 0
  · simp [hs]
  · rw [if_neg hs] at h
    rw [if_neg hs]
    simp only [List.any_eq_true] at h ⊢
    obtain ⟨s, hmem, hrel⟩ := h
    refine ⟨s, hmem, ?_⟩
    have hrel' : s ∈ relevantServices e1 := by
      simpa [List.contains, List.elem_iff] using hrel
    simpa [List.contains, List.elem_iff] using relevantServices_mono hw hc he hrel'

/-- Witness for C10 at a concrete input: an etcd-only entry is relevant for an
"etcd" rotation request, hence so is an entry holding all three roles. -/
theorem shouldRotateEntry_mono_witness :
    shouldRotateEntry ⟨1, ["etcd"]⟩ ⟨true, true, true⟩ = true :=
  shouldRotateEntry_mono ⟨1, ["etcd"]⟩ ⟨false, false, true⟩ ⟨true, true, true⟩
    (fun h => by cases h) (fun h => by cases h) (fun _ => rfl) (by decide)

/-- A one-time instruction of a node plan (`plan.OneTimeInstruction`): name,
command and argument list. -/
structure OneTimeInstruction where
  name : String
  command : String
  args : List String
deriving Repr, DecidableEq

/-- A file write of a node plan (`plan.File`): content (base64) and path. -/
structure File where
  content : String
  path : String
deriving Repr, DecidableEq

/-- A node plan (`plan.NodePlan`): ordered file writes and instructions. -/
structure NodePlan where
  files : List File
  instructions : List OneTimeInstruction
deriving Repr, DecidableEq

/-- Modelled from the spec: package-level argument-name constant for the
kube-controller-manager component's resolved argument list. -/
def KubeControllerManagerArg : String := "kube-controller-manager-arg"

/-- Modelled from the spec: package-level argument-name constant for the
kube-scheduler component's resolved argument list. -/
def KubeSchedulerArg : String := "kube-scheduler-arg"

/-- Modelled from the spec: the argument naming a component's certificate
directory. -/
def CertDirArgument : String := "cert-dir"

/-- Modelled from the spec: the argument naming an explicitly configured TLS
certificate file. -/
def TLSCertFileArgument : String := "tls-cert-file"

/-- Modelled from the spec: default certificate filename (relative to the
certificate directory) for the kube-controller-manager. -/
def DefaultKubeControllerManagerCert : String :=
  "kube-controller-manager/kube-controller-manager.crt"

/-- The rke2 runtime family name (`capr.RuntimeRKE2`). -/
def RuntimeRKE2 : String := "rke2"

/-- The k3s runtime family name (`capr.RuntimeK3S`). -/
def RuntimeK3S : String := "k3s"

/-- Whether `pat` is a prefix of `s` (over character lists). -/
def listStartsWith : List Char → List Char → Bool
  | _, [] => true
  | [], _ :: _ => false
  | c :: cs, p :: ps => c = p && listStartsWith cs ps

/-- Go's `strings.Contains`: some suffix of `s` starts with `pat`. -/
def listContainsSub : List Char → List Char → Bool
  | [], pat => pat.isEmpty
  | c :: cs, pat => listStartsWith (c :: cs) pat || listContainsSub cs pat

/-- Go's `strings.Contains` on strings. -/
def strContains (s pat : String) : Bool := listContainsSub s.toList pat.toList

/-- Left-to-right, non-overlapping split on a pattern; fuel-driven so that the
kernel can evaluate it (fuel at least the string length is exact). -/
def splitOnListFuel (pat : List Char) : Nat → List Char → List Char → List (List Char)
  | 0, s, acc => [acc.reverse ++ s]
  | fuel + 1, s, acc =>
    match s with
    | [] => [acc.reverse]
    | c :: cs =>
      if listStartsWith s pat then
        acc.reverse :: splitOnListFuel pat fuel (s.drop pat.length) []
      else
        splitOnListFuel pat fuel cs (c :: acc)

/-- Go's `strings.Split` (for a non-empty separator). -/
def splitOnStr (s sep : String) : List String :=
  (splitOnListFuel sep.toList (s.toList.length + 1) s.toList []).map
    (fun cs => String.mk cs)

/-- Join a list of strings with a separator (Go's `strings.Join`). -/
def joinWith (sep : String) : List String → String
  | [] => ""
  | [x] => x
  | x :: y :: rest => x ++ sep ++ joinWith sep (y :: rest)

/-- Modelled from the spec: `capr.GetRuntime` reads the runtime family off the
kubernetes version string — versions of the k3s family mention "k3s", every
other version is of the rke2 family. -/
def GetRuntime (kubernetesVersion : String) : String :=
  if strContains kubernetesVersion RuntimeK3S then RuntimeK3S else RuntimeRKE2

/-- Modelled from the spec: `capr.GetRuntimeAgentUnit`, the node's agent
service unit for its runtime family. -/
def GetRuntimeAgentUnit (kubernetesVersion : String) : String :=
  GetRuntime kubernetesVersion ++ "-agent"

/-- Modelled from the spec: `capr.GetRuntimeServerUnit`, the node's server
service unit for its runtime family. -/
def GetRuntimeServerUnit (kubernetesVersion : String) : String :=
  if GetRuntime kubernetesVersion = RuntimeK3S then "k3s" else "rke2-server"

/-- Go's `strings.ReplaceAll s old new` (non-empty `old`): join on `new` the
pieces obtained by splitting `s` on `old`. -/
def replaceAll (s old new : String) : String :=
  joinWith new (splitOnStr s old)

/-- Modelled from the spec: `getArgValue` reads the value of a named argument
out of a component's resolved argument list; entries have the form
`name<delim>value`; the empty string signals an absent argument. -/
def getArgValue (args : List String) (name delim : String) : String :=
  match args.filterMap (fun a =>
      match splitOnStr a delim with
      | [] => none
      | k :: rest => if k = name then some (joinWith delim rest) else none) with
  | [] => ""
  | v :: _ => v

/-- The embedded idempotent rotation shell script
(`certificaterotation.go:76-98`), byte for byte. -/
def idempotentRotateScript : String :=
  "\n#!/bin/sh\n\ncurrentGeneration=\"\"\ntargetGeneration=$2\nruntime=$1\nshift\nshift\n\ndataRoot=\"/var/lib/rancher/$runtime/certificate_rotation\"\ngenerationFile=\"$dataRoot/generation\"\n\ncurrentGeneration=$(cat \"$generationFile\" || echo \"\")\n\nif [ \"$currentGeneration\" != \"$targetGeneration\" ]; then\n  $runtime certificate rotate  $@\nelse\n\techo \"certificates have already been rotated to the current generation.\"\nfi\n\nmkdir -p $dataRoot\necho $targetGeneration > \"$generationFile\"\n"

/-- The base64 standard alphabet. -/
def base64Chars : String :=
  "ABCDEFGHIJKLMNOPQRSTUVWXYZabcdefghijklmnopqrstuvwxyz0123456789+/"

/-- Digit of the base64 standard alphabet. -/
def base64Digit (n : Nat) : Char := base64Chars.toList.getD n 'A'

/-- Base64-encode a byte list, three bytes at a time, with `=` padding. -/
def base64Chunks : List Nat → List Char
  | [] => []
  | [b0] => [base64Digit (b0 / 4), base64Digit (b0 % 4 * 16), '=', '=']
  | [b0, b1] => [base64Digit (b0 / 4), base64Digit (b0 % 4 * 16 + b1 / 16),
                 base64Digit (b1 % 16 * 4), '=']
  | b0 :: b1 :: b2 :: rest =>
      base64Digit (b0 / 4) :: base64Digit (b0 % 4 * 16 + b1 / 16) ::
        base64Digit (b1 % 16 * 4 + b2 / 64) :: base64Digit (b2 % 64) ::
        base64Chunks rest

/-- Modelled from the spec: the Go standard library's
`base64.StdEncoding.EncodeToString` over the string's UTF-8 bytes. -/
def base64Encode (s : String) : String :=
  String.mk (base64Chunks (s.toUTF8.toList.map UInt8.toNat))

/-- The predicate `rotationContainsService` — true if the rotation's service list is empty or
explicitly lists the service (`certificaterotation.go:234-247`). -/
def rotationContainsService (rotation : Option RotateCertificates) (service : String) : Bool :=
  match rotation with
  | none => false
  | some rotation =>
    if rotation.services.length = 0 then true
    else rotation.services.any (fun desiredService => desiredService = service)

/-- The agent restart instruction appended for a worker-only entry
(`certificaterotation.go:113-120`). -/
def restartAgentInstruction (cp : RKEControlPlane) : OneTimeInstruction :=
  { name := "restart", command := "systemctl",
    args := ["restart", GetRuntimeAgentUnit cp.spec.kubernetesVersion] }

/-- The final server restart instruction (`certificaterotation.go:222-229`). -/
def restartServerInstruction (cp : RKEControlPlane) : OneTimeInstruction :=
  { name := "restart", command := "systemctl",
    args := ["restart", GetRuntimeServerUnit cp.spec.kubernetesVersion] }

/-- The on-node path of the rotation script (`certificaterotation.go:124`). -/
def rotateScriptPath (cp : RKEControlPlane) : String :=
  "/var/lib/rancher/" ++ GetRuntime cp.spec.kubernetesVersion ++
    "/rancher_v2prov_certificate_rotation/bin/rotate.sh"

/-- The argument list of the rotation-script invocation
(`certificaterotation.go:128-139`). -/
def rotateArgs (cp : RKEControlPlane) (rotation : RotateCertificates) : List String :=
  let args := ["-xe", rotateScriptPath cp, GetRuntime cp.spec.kubernetesVersion,
               toString rotation.generation]
  if rotation.services.length > 0 then
    args ++ rotation.services.flatMap (fun service => ["-s", service])
  else args

/-- The rotation-script execution instruction (`certificaterotation.go:145-149`). -/
def rotateCertificatesInstruction (cp : RKEControlPlane) (rotation : RotateCertificates) :
    OneTimeInstruction :=
  { name := "rotate certificates", command := "sh", args := rotateArgs cp rotation }

/-- Deletion of the kube-controller-manager certificate file
(`certificaterotation.go:155-162`). -/
def kcmCertDeletion (kcmCertDir : String) : OneTimeInstruction :=
  { name := "remove kube-controller-manager cert for regeneration", command := "rm",
    args := ["-f", kcmCertDir ++ "/" ++ DefaultKubeControllerManagerCert] }

/-- Deletion of the kube-controller-manager key file
(`certificaterotation.go:163-170`). -/
def kcmKeyDeletion (kcmCertDir : String) : OneTimeInstruction :=
  { name := "remove kube-controller-manager key for regeneration", command := "rm",
    args := ["-f",
      kcmCertDir ++ "/" ++ replaceAll DefaultKubeControllerManagerCert ".crt" ".key"] }

/-- Deletion of the kube-controller-manager static pod manifest on rke2
(`certificaterotation.go:173-180`). -/
def kcmStaticPodDeletion : OneTimeInstruction :=
  { name := "remove kube-controller-manager static pod manifest", command := "rm",
    args := ["-f", "/var/lib/rancher/rke2/agent/pod-manifests/kube-controller-manager.yaml"] }

/-- Deletion of the kube-scheduler "cert" file — note the source uses the
argument-name constant `KubeSchedulerArg` as the filename
(`certificaterotation.go:187-194`). -/
def schedulerCertDeletion (ksCertDir : String) : OneTimeInstruction :=
  { name := "remove kube-scheduler cert for regeneration", command := "rm",
    args := ["-f", ksCertDir ++ "/" ++ KubeSchedulerArg] }

/-- Deletion of the kube-scheduler "key" file — the source applies
`.crt`→`.key` replacement to `KubeSchedulerArg`
(`certificaterotation.go:195-202`). -/
def schedulerKeyDeletion (ksCertDir : String) : OneTimeInstruction :=
  { name := "remove kube-scheduler key for regeneration", command := "rm",
    args := ["-f", ksCertDir ++ "/" ++ replaceAll KubeSchedulerArg ".crt" ".key"] }

/-- Deletion of the kube-scheduler static pod manifest on rke2
(`certificaterotation.go:205-212`). -/
def schedulerStaticPodDeletion : OneTimeInstruction :=
  { name := "remove kube-scheduler static pod manifest", command := "rm",
    args := ["-f", "/var/lib/rancher/rke2/agent/pod-manifests/kube-scheduler.yaml"] }

/-- The kube-controller-manager deletion block (`certificaterotation.go:154-182`). -/
def controllerManagerDeletions (runtime kcmCertDir : String) : List OneTimeInstruction :=
  [kcmCertDeletion kcmCertDir, kcmKeyDeletion kcmCertDir] ++
    (if runtime = RuntimeRKE2 then [kcmStaticPodDeletion] else [])

/-- The kube-scheduler deletion block (`certificaterotation.go:186-214`). -/
def schedulerDeletions (runtime ksCertDir : String) : List OneTimeInstruction :=
  [schedulerCertDeletion ksCertDir, schedulerKeyDeletion ksCertDir] ++
    (if runtime = RuntimeRKE2 then [schedulerStaticPodDeletion] else [])

/-- The control-plane-only deletion instructions (`certificaterotation.go:150-216`). -/
def controlPlaneDeletions (runtime : String) (config : String → List String)
    (rotation : RotateCertificates) : List OneTimeInstruction :=
  (if rotationContainsService (some rotation) "controller-manager" then
      let kcmCertDir := getArgValue (config KubeControllerManagerArg) CertDirArgument "="
      if kcmCertDir ≠ "" ∧
          getArgValue (config KubeControllerManagerArg) TLSCertFileArgument "=" = "" then
        controllerManagerDeletions runtime kcmCertDir
      else []
    else []) ++
  (if rotationContainsService (some rotation) "scheduler" then
      let ksCertDir := getArgValue (config KubeSchedulerArg) CertDirArgument "="
      if ksCertDir ≠ "" ∧
          getArgValue (config KubeSchedulerArg) TLSCertFileArgument "=" = "" then
        schedulerDeletions runtime ksCertDir
      else []
    else [])

/-- Modelled from the spec: the output of the external base-plan generation
collaborator `generatePlanWithConfigFiles` — "the node's normal steady-state
config files and the resolved runtime argument map". The argument map gives,
per component key, that component's resolved argument list. Per spec step 7
the collaborator's returned coordination address is the join server it was
invoked with, so the embedding returns the (possibly blanked) input address. -/
structure BaseConfig where
  files : List File
  config : String → List String

/-- The plan composer `rotateCertificatesPlan` (`certificaterotation.go:102-231`), parameterized
by the external base-plan generator and the external manifest-removal policy
(`generateManifestRemovalInstruction`). -/
def rotateCertificatesPlan
    (gen : PlanEntry → String → Except String BaseConfig)
    (manifestRemoval : String → PlanEntry → Option OneTimeInstruction)
    (cp : RKEControlPlane) (rotation : RotateCertificates)
    (entry : PlanEntry) (joinServer : String) :
    Except String (NodePlan × String) :=
  let joinServer := if isOnlyWorker entry then "" else joinServer
  match gen entry joinServer with
  | .error e => .error e
  | .ok base =>
    let rotatePlan : NodePlan := { files := base.files, instructions := [] }
    if isOnlyWorker entry then
      .ok ({ rotatePlan with
              instructions := rotatePlan.instructions ++ [restartAgentInstruction cp] },
           joinServer)
    else
      let runtime := GetRuntime cp.spec.kubernetesVersion
      let rotatePlan := { rotatePlan with
        files := rotatePlan.files ++
          [({ content := base64Encode idempotentRotateScript,
              path := rotateScriptPath cp } : File)] }
      let rotatePlan := { rotatePlan with
        instructions := rotatePlan.instructions ++ [rotateCertificatesInstruction cp rotation] }
      let rotatePlan := { rotatePlan with
        instructions := rotatePlan.instructions ++
          (if isControlPlane entry then controlPlaneDeletions runtime base.config rotation
           else []) }
      let rotatePlan := { rotatePlan with
        instructions := rotatePlan.instructions ++
          (if runtime = RuntimeRKE2 then
             match manifestRemoval runtime entry with
             | some instruction => [instruction]
             | none => []
           else []) }
      let rotatePlan := { rotatePlan with
        instructions := rotatePlan.instructions ++ [restartServerInstruction cp] }
      .ok (rotatePlan, joinServer)

lemma isOnlyWorker_eq_false_of_controlPlane {entry : PlanEntry}
    (h : isControlPlane entry = true) : isOnlyWorker entry = false := by
  simp [isControlPlane] at h
  simp [isOnlyWorker, isWorker, isEtcd, isControlPlane, h]

/-- The shape of the plan composed for a node that is not worker-only: the base
config files plus the embedded script, and the instruction list headed by the
rotation-script execution and ending in the server restart. -/
lemma rotateCertificatesPlan_eq_of_not_onlyWorker
    (gen : PlanEntry → String → Except String BaseConfig)
    (manifestRemoval : String → PlanEntry → Option OneTimeInstruction)
    (cp : RKEControlPlane) (rotation : RotateCertificates)
    (entry : PlanEntry) (joinServer : String) (base : BaseConfig)
    (hw : isOnlyWorker entry = false)
    (hgen : gen entry joinServer = .ok base) :
    rotateCertificatesPlan gen manifestRemoval cp rotation entry joinServer =
      .ok ({ files := base.files ++
              [{ content := base64Encode idempotentRotateScript,
                 path := rotateScriptPath cp }],
             instructions :=
               rotateCertificatesInstruction cp rotation ::
                 ((if isControlPlane entry then
                     controlPlaneDeletions (GetRuntime cp.spec.kubernetesVersion)
                       base.config rotation
                   else []) ++
                  (if GetRuntime cp.spec.kubernetesVersion = RuntimeRKE2 then
                     match manifestRemoval (GetRuntime cp.spec.kubernetesVersion) entry with
                     | some instruction => [instruction]
                     | none => []
                   else []) ++
                  [restartServerInstruction cp]) }, joinServer) := by
  unfold rotateCertificatesPlan
  simp [hw, hgen, List.append_assoc]

/-- C3: for a worker-only node the composed plan carries exactly the base
config files (no rotation-script file is embedded) and exactly one
instruction, the agent service restart; the coordination address passed to
base-plan generation and returned is blanked to the empty string. -/
theorem workerOnly_plan
    (gen : PlanEntry → String → Except String BaseConfig)
    (manifestRemoval : String → PlanEntry → Option OneTimeInstruction)
    (cp : RKEControlPlane) (rotation : RotateCertificates)
    (entry : PlanEntry) (joinServer : String) (base : BaseConfig)
    (hw : isOnlyWorker entry = true)
    (hgen : gen entry "" = .ok base) :
    rotateCertificatesPlan gen manifestRemoval cp rotation entry joinServer =
      .ok ({ files := base.files, instructions := [restartAgentInstruction cp] }, "") := by
  unfold rotateCertificatesPlan
  simp [hw, hgen]

/-- Witness for C3 at a concrete worker-only node: the theorem applied to a
concrete cluster, entry and base-plan generator. -/
theorem workerOnly_plan_witness :
    rotateCertificatesPlan
        (fun _ _ => .ok ⟨[{ content := "Y2ZnCg==", path := "/etc/rancher/rke2/config.yaml" }],
          fun _ => []⟩)
        (fun _ _ => none)
        ⟨⟨some ⟨3, []⟩, "v1.26.4+rke2r1"⟩, ⟨true, 0⟩⟩ ⟨3, []⟩
        ⟨true, false, false⟩ "https://init:9345" =
      .ok ({ files := [{ content := "Y2ZnCg==", path := "/etc/rancher/rke2/config.yaml" }],
             instructions :=
               [restartAgentInstruction ⟨⟨some ⟨3, []⟩, "v1.26.4+rke2r1"⟩, ⟨true, 0⟩⟩] }, "") :=
  workerOnly_plan _ _ _ _ _ _ _ (by decide) rfl

lemma controllerManagerDeletions_command {instruction : OneTimeInstruction}
    {runtime kcmCertDir : String}
    (h : instruction ∈ controllerManagerDeletions runtime kcmCertDir) :
    instruction.command = "rm" := by
  unfold controllerManagerDeletions at h
  rcases List.mem_append.mp h with h | h
  · simp at h
    rcases h with h | h <;> subst h <;> rfl
  · split at h
    · simp at h; subst h; rfl
    · simp at h

lemma schedulerDeletions_command {instruction : OneTimeInstruction}
    {runtime ksCertDir : String}
    (h : instruction ∈ schedulerDeletions runtime ksCertDir) :
    instruction.command = "rm" := by
  unfold schedulerDeletions at h
  rcases List.mem_append.mp h with h | h
  · simp at h
    rcases h with h | h <;> subst h <;> rfl
  · split at h
    · simp at h; subst h; rfl
    · simp at h

lemma controlPlaneDeletions_command {instruction : OneTimeInstruction}
    {runtime : String} {config : String → List String} {rotation : RotateCertificates}
    (h : instruction ∈ controlPlaneDeletions runtime config rotation) :
    instruction.command = "rm" := by
  simp only [controlPlaneDeletions] at h
  rcases List.mem_append.mp h with h | h
  · split at h
    · split at h
      · exact controllerManagerDeletions_command h
      · simp at h
    · simp at h
  · split at h
    · split at h
      · exact schedulerDeletions_command h
      · simp at h
    · simp at h

/-- C6: for a non-worker-only node the composed instruction list is the
rotation-script execution, followed by a middle segment of deletion (`rm`)
instructions (certificate/key/manifest removals), followed by the server
service restart as the final instruction. -/
theorem plan_instruction_order
    (gen : PlanEntry → String → Except String BaseConfig)
    (manifestRemoval : String → PlanEntry → Option OneTimeInstruction)
    (cp : RKEControlPlane) (rotation : RotateCertificates)
    (entry : PlanEntry) (joinServer : String) (base : BaseConfig)
    (hw : isOnlyWorker entry = false)
    (hgen : gen entry joinServer = .ok base)
    (hmr : ∀ runtime instruction, manifestRemoval runtime entry = some instruction →
        instruction.command = "rm") :
    ∃ pl mid, rotateCertificatesPlan gen manifestRemoval cp rotation entry joinServer =
        .ok (pl, joinServer) ∧
      pl.instructions =
        rotateCertificatesInstruction cp rotation ::
          (mid ++ [restartServerInstruction cp]) ∧
      ∀ instruction ∈ mid, instruction.command = "rm" := by
  rw [rotateCertificatesPlan_eq_of_not_onlyWorker gen manifestRemoval cp rotation entry
    joinServer base hw hgen]
  refine ⟨_, (if isControlPlane entry then
      controlPlaneDeletions (GetRuntime cp.spec.kubernetesVersion) base.config rotation
    else []) ++
    (if GetRuntime cp.spec.kubernetesVersion = RuntimeRKE2 then
      match manifestRemoval (GetRuntime cp.spec.kubernetesVersion) entry with
      | some instruction => [instruction]
      | none => []
    else []), rfl, rfl, ?_⟩
  intro instruction hmem
  rcases List.mem_append.mp hmem with h | h
  · split at h
    · exact controlPlaneDeletions_command h
    · simp at h
  · split at h
    · rename_i hmatch
      revert h
      split
      · rename_i ins heq
        intro h
        simp at h
        subst h
        exact hmr _ _ heq
      · intro h
        simp at h
    · simp at h

/-- Witness for C6 at a concrete control-plane+etcd node on rke2 with a full
rotation request. -/
theorem plan_instruction_order_witness :
    ∃ pl mid, rotateCertificatesPlan (fun _ _ => .ok ⟨[], fun _ => []⟩) (fun _ _ => none)
        ⟨⟨some ⟨5, []⟩, "v1.26.4+rke2r1"⟩, ⟨true, 2⟩⟩ ⟨5, []⟩
        ⟨false, true, true⟩ "https://init:9345" =
        .ok (pl, "https://init:9345") ∧
      pl.instructions =
        rotateCertificatesInstruction ⟨⟨some ⟨5, []⟩, "v1.26.4+rke2r1"⟩, ⟨true, 2⟩⟩ ⟨5, []⟩ ::
          (mid ++ [restartServerInstruction ⟨⟨some ⟨5, []⟩, "v1.26.4+rke2r1"⟩, ⟨true, 2⟩⟩]) ∧
      ∀ instruction ∈ mid, instruction.command = "rm" :=
  plan_instruction_order _ _ _ _ _ _ _ (by decide) rfl (fun _ _ h => nomatch h)

lemma mem_ite_nil {α : Type _} {c : Prop} [Decidable c] {l : List α} {a : α}
    (h : a ∈ if c then l else []) : c ∧ a ∈ l := by
  by_cases hc : c
  · rw [if_pos hc] at h; exact ⟨hc, h⟩
  · rw [if_neg hc] at h; simp at h

lemma schedulerDeletions_name {instruction : OneTimeInstruction}
    {runtime ksCertDir : String}
    (h : instruction ∈ schedulerDeletions runtime ksCertDir) :
    instruction.name = "remove kube-scheduler cert for regeneration" ∨
    instruction.name = "remove kube-scheduler key for regeneration" ∨
    instruction.name = "remove kube-scheduler static pod manifest" := by
  unfold schedulerDeletions at h
  rcases List.mem_append.mp h with h | h
  · simp at h
    rcases h with h | h <;> subst h <;> simp [schedulerCertDeletion, schedulerKeyDeletion]
  · split at h
    · simp at h; subst h; simp [schedulerStaticPodDeletion]
    · simp at h

/-- C4: for a control-plane node whose rotation request includes
"controller-manager", a populated certificate directory with no explicit TLS
certificate file argument yields delete instructions for that service's
certificate and key files, while an explicit TLS certificate file argument
suppresses all such delete instructions. -/
theorem controllerManager_cert_cleanup
    (gen : PlanEntry → String → Except String BaseConfig)
    (manifestRemoval : String → PlanEntry → Option OneTimeInstruction)
    (cp : RKEControlPlane) (rotation : RotateCertificates)
    (entry : PlanEntry) (joinServer : String) (base : BaseConfig)
    (hcp : isControlPlane entry = true)
    (hreq : rotationContainsService (some rotation) "controller-manager" = true)
    (hgen : gen entry joinServer = .ok base)
    (hmr : ∀ runtime instruction, manifestRemoval runtime entry = some instruction →
        instruction.name ≠ "remove kube-controller-manager cert for regeneration" ∧
        instruction.name ≠ "remove kube-controller-manager key for regeneration") :
    ∃ pl, rotateCertificatesPlan gen manifestRemoval cp rotation entry joinServer =
        .ok (pl, joinServer) ∧
      ((getArgValue (base.config KubeControllerManagerArg) CertDirArgument "=" ≠ "" ∧
        getArgValue (base.config KubeControllerManagerArg) TLSCertFileArgument "=" = "") →
        kcmCertDeletion (getArgValue (base.config KubeControllerManagerArg) CertDirArgument "=")
            ∈ pl.instructions ∧
        kcmKeyDeletion (getArgValue (base.config KubeControllerManagerArg) CertDirArgument "=")
            ∈ pl.instructions) ∧
      (getArgValue (base.config KubeControllerManagerArg) TLSCertFileArgument "=" ≠ "" →
        ∀ instruction ∈ pl.instructions,
          instruction.name ≠ "remove kube-controller-manager cert for regeneration" ∧
          instruction.name ≠ "remove kube-controller-manager key for regeneration") := by
  have hw := isOnlyWorker_eq_false_of_controlPlane hcp
  rw [rotateCertificatesPlan_eq_of_not_onlyWorker gen manifestRemoval cp rotation entry
    joinServer base hw hgen]
  refine ⟨_, rfl, ?_, ?_⟩
  · rintro ⟨hd, htls⟩
    constructor <;>
      simp [hcp, controlPlaneDeletions, hreq, hd, htls, controllerManagerDeletions]
  · intro htls instruction hmem
    have hnot : ¬ (getArgValue (base.config KubeControllerManagerArg) CertDirArgument "=" ≠ "" ∧
        getArgValue (base.config KubeControllerManagerArg) TLSCertFileArgument "=" = "") :=
      fun hcontra => htls hcontra.2
    cases hmem with
    | head =>
      exact ⟨fun hc => by simp [rotateCertificatesInstruction] at hc,
             fun hc => by simp [rotateCertificatesInstruction] at hc⟩
    | tail _ hmem =>
      rcases List.mem_append.mp hmem with h | h
      · rcases List.mem_append.mp h with h | h
        · rw [if_pos hcp] at h
          simp only [controlPlaneDeletions] at h
          rcases List.mem_append.mp h with h | h
          · obtain ⟨-, h⟩ := mem_ite_nil h
            obtain ⟨hcond, -⟩ := mem_ite_nil h
            exact absurd hcond hnot
          · obtain ⟨-, h⟩ := mem_ite_nil h
            obtain ⟨-, h⟩ := mem_ite_nil h
            rcases schedulerDeletions_name h with hn | hn | hn <;>
              exact ⟨fun hc => by rw [hn] at hc; exact absurd hc (by decide),
                     fun hc => by rw [hn] at hc; exact absurd hc (by decide)⟩
        · obtain ⟨-, h⟩ := mem_ite_nil h
          revert h
          split
          · rename_i ins heq
            intro h
            simp at h
            subst h
            exact hmr _ _ heq
          · intro h
            simp at h
      · simp at h
        subst h
        exact ⟨fun hc => by simp [restartServerInstruction] at hc,
               fun hc => by simp [restartServerInstruction] at hc⟩

/-- Witness for C4 at a concrete control-plane node with a populated
kube-controller-manager certificate directory and no TLS cert file argument. -/
theorem controllerManager_cert_cleanup_witness :
    ∃ pl, rotateCertificatesPlan
        (fun _ _ => .ok ⟨[], fun k => if k = KubeControllerManagerArg then
            ["cert-dir=/var/lib/rancher/k3s/server/tls/kube-controller-manager"] else []⟩)
        (fun _ _ => none)
        ⟨⟨some ⟨2, []⟩, "v1.26.4+k3s1"⟩, ⟨true, 1⟩⟩ ⟨2, []⟩
        ⟨false, true, false⟩ "https://init:9345" =
        .ok (pl, "https://init:9345") ∧
      kcmCertDeletion "/var/lib/rancher/k3s/server/tls/kube-controller-manager"
          ∈ pl.instructions ∧
      kcmKeyDeletion "/var/lib/rancher/k3s/server/tls/kube-controller-manager"
          ∈ pl.instructions := by
  obtain ⟨pl, heq, hpresent, _⟩ := controllerManager_cert_cleanup
    (fun _ _ => .ok ⟨[], fun k => if k = KubeControllerManagerArg then
        ["cert-dir=/var/lib/rancher/k3s/server/tls/kube-controller-manager"] else []⟩)
    (fun _ _ => none)
    ⟨⟨some ⟨2, []⟩, "v1.26.4+k3s1"⟩, ⟨true, 1⟩⟩ ⟨2, []⟩
    ⟨false, true, false⟩ "https://init:9345" _
    (by decide) (by decide) rfl (fun _ _ h => nomatch h)
  obtain ⟨h1, h2⟩ := hpresent (by constructor <;> decide)
  exact ⟨pl, heq, h1, h2⟩

/-- C5 (code evaluated at the failing input): for a concrete control-plane
node whose rotation request lists "scheduler", with a populated scheduler
certificate directory and no TLS certificate file argument, the instructions
named as the scheduler cert and key deletions are both present but both remove
the same path `<certDir>/kube-scheduler-arg` — the argument-name constant
rather than the scheduler's certificate file — and the `.crt` → `.key`
replacement leaves that name unchanged, so the "key" path is not distinct from
the "cert" path. -/
theorem schedulerDeletion_paths_coincide :
    ∃ pl : NodePlan,
      rotateCertificatesPlan
          (fun _ _ => .ok ⟨[], fun k => if k = KubeSchedulerArg then
              ["cert-dir=/var/lib/rancher/k3s/server/tls/kube-scheduler"] else []⟩)
          (fun _ _ => none)
          ⟨⟨some ⟨1, ["scheduler"]⟩, "v1.26.4+k3s1"⟩, ⟨true, 0⟩⟩ ⟨1, ["scheduler"]⟩
          ⟨false, true, false⟩ "https://init:9345" =
        .ok (pl, "https://init:9345") ∧
      schedulerCertDeletion "/var/lib/rancher/k3s/server/tls/kube-scheduler"
          ∈ pl.instructions ∧
      schedulerKeyDeletion "/var/lib/rancher/k3s/server/tls/kube-scheduler"
          ∈ pl.instructions ∧
      (schedulerCertDeletion "/var/lib/rancher/k3s/server/tls/kube-scheduler").args =
        ["-f", "/var/lib/rancher/k3s/server/tls/kube-scheduler/kube-scheduler-arg"] ∧
      (schedulerKeyDeletion "/var/lib/rancher/k3s/server/tls/kube-scheduler").args =
        ["-f", "/var/lib/rancher/k3s/server/tls/kube-scheduler/kube-scheduler-arg"] :=
  ⟨_, rfl, by decide, by decide, by decide, by decide⟩

/-- An observable action of the orchestrator: a plan dispatched for the node
at a given position of the collected node list, or a pause/unpause call on the
CAPI cluster. -/
inductive Event where
  | dispatched : Nat → Event
  | paused : Bool → Event
deriving Repr, DecidableEq

/-- The orchestrator's result channel, mirroring Go's `error` return of
`rotateCertificates`: nil, a hard error, or the non-fatal `errWaiting`
sentinel carrying its message. -/
inductive RotateResult where
  | ok : RotateResult
  | err : String → RotateResult
  | waiting : String → RotateResult
deriving Repr, DecidableEq

/-- Modelled from the spec: the external collaborators consumed by the
orchestrator — `findInitNode` (found flag and join server, or an error), the
collected node list (`collect(clusterPlan, anyRole)`), the base-plan
generator, the manifest-removal policy, `assignAndCheckPlan` (dispatch, given
the node's position, entry, composed plan and joined server; `none` is
success) and `pauseCAPICluster` (`none` is success). -/
structure Planner where
  findInitNode : Except String (Bool × String)
  nodes : List PlanEntry
  gen : PlanEntry → String → Except String BaseConfig
  manifestRemoval : String → PlanEntry → Option OneTimeInstruction
  assign : Nat → PlanEntry → NodePlan → String → Option String
  pause : Bool → Option String

/-- The outcome of one `rotateCertificates` invocation: the returned status,
the returned error channel, and the trace of observable collaborator calls. -/
structure RotateOutcome where
  status : RKEControlPlaneStatus
  result : RotateResult
  events : List Event

/-- The per-node loop of `rotateCertificates` (`certificaterotation.go:31-49`):
skip irrelevant entries, compose, dispatch; on dispatch failure pause the CAPI
cluster and stop, preferring the pause error when pausing itself fails. The
returned option is `none` when the loop ran to completion. -/
def rotateNodesAux (p : Planner) (cp : RKEControlPlane) (rotation : RotateCertificates)
    (joinServer : String) : Nat → List PlanEntry → List Event × Option RotateResult
  | _, [] => ([], none)
  | i, node :: rest =>
    if shouldRotateEntry rotation node then
      match rotateCertificatesPlan p.gen p.manifestRemoval cp rotation node joinServer with
      | .error e => ([], some (.err e))
      | .ok (rotatePlan, joinedServer) =>
        match p.assign i node rotatePlan joinedServer with
        | some e =>
          match p.pause true with
          | some pauseErr => ([.dispatched i, .paused true], some (.err pauseErr))
          | none => ([.dispatched i, .paused true], some (.err e))
        | none =>
          let r := rotateNodesAux p cp rotation joinServer (i + 1) rest
          (.dispatched i :: r.1, r.2)
    else rotateNodesAux p cp rotation joinServer (i + 1) rest

/-- The orchestrator `rotateCertificates` (`certificaterotation.go:16-57`): gate on
`shouldRotate`, locate the init node, iterate the collected nodes, and on full
success unpause, advance the status generation and return the `errWaiting`
sentinel. The `none` arm of the rotation-request match is unreachable because
`shouldRotate` already required the request to be present. -/
def rotateCertificates (p : Planner) (cp : RKEControlPlane)
    (status : RKEControlPlaneStatus) : RotateOutcome :=
  if shouldRotate cp = false then ⟨status, .ok, []⟩
  else
    match p.findInitNode with
    | .error e => ⟨status, .err e, []⟩
    | .ok (found, joinServer) =>
      if found = false ∨ joinServer = "" then ⟨status, .ok, []⟩
      else
        match cp.spec.rotateCertificates with
        | none => ⟨status, .ok, []⟩
        | some rotation =>
          match (rotateNodesAux p cp rotation joinServer 0 p.nodes).2 with
          | some result =>
            ⟨status, result, (rotateNodesAux p cp rotation joinServer 0 p.nodes).1⟩
          | none =>
            match p.pause false with
            | some _ =>
              ⟨status, .waiting "unpausing CAPI cluster",
                (rotateNodesAux p cp rotation joinServer 0 p.nodes).1 ++ [.paused false]⟩
            | none =>
              ⟨{ status with certificateRotationGeneration := rotation.generation },
                .waiting "certificate rotation done",
                (rotateNodesAux p cp rotation joinServer 0 p.nodes).1 ++ [.paused false]⟩

/-- The node at position `i` of the collected list composes and dispatches
successfully whenever it is eligible for the rotation. -/
def entryDispatchOk (p : Planner) (cp : RKEControlPlane) (rotation : RotateCertificates)
    (joinServer : String) (i : Nat) (node : PlanEntry) : Prop :=
  shouldRotateEntry rotation node = true →
    ∃ rotatePlan joinedServer,
      rotateCertificatesPlan p.gen p.manifestRemoval cp rotation node joinServer =
        .ok (rotatePlan, joinedServer) ∧
      p.assign i node rotatePlan joinedServer = none

lemma rotateNodesAux_none_of_all_ok (p : Planner) (cp : RKEControlPlane)
    (rotation : RotateCertificates) (joinServer : String) :
    ∀ (nodes : List PlanEntry) (i : Nat),
      (∀ j (hj : j < nodes.length),
        entryDispatchOk p cp rotation joinServer (i + j) (nodes.get ⟨j, hj⟩)) →
      (rotateNodesAux p cp rotation joinServer i nodes).2 = none := by
  intro nodes
  induction nodes with
  | nil => intro i _; rfl
  | cons node rest ih =>
    intro i h
    have hshift : ∀ j (hj : j < rest.length),
        entryDispatchOk p cp rotation joinServer (i + 1 + j) (rest.get ⟨j, hj⟩) := by
      intro j hj
      have hh := h (j + 1) (by simpa using Nat.succ_lt_succ hj)
      have harith : i + (j + 1) = i + 1 + j := by omega
      rw [harith] at hh
      simpa using hh
    unfold rotateNodesAux
    by_cases hrel : shouldRotateEntry rotation node = true
    · rw [if_pos hrel]
      obtain ⟨pl, js, hcomp0, hassign0⟩ := h 0 (by simp) hrel
      have hcomp : rotateCertificatesPlan p.gen p.manifestRemoval cp rotation node
          joinServer = Except.ok (pl, js) := hcomp0
      have hassign : p.assign i node pl js = none := hassign0
      split
      · rename_i e heq
        rw [hcomp] at heq
        exact absurd heq (by simp)
      · rename_i rotatePlan joinedServer heq
        rw [hcomp] at heq
        injection heq with heq1
        cases heq1
        rw [hassign]
        exact ih (i + 1) hshift
    · rw [if_neg hrel]
      exact ih (i + 1) hshift

lemma rotateNodesAux_all_ok_of_none (p : Planner) (cp : RKEControlPlane)
    (rotation : RotateCertificates) (joinServer : String) :
    ∀ (nodes : List PlanEntry) (i : Nat),
      (rotateNodesAux p cp rotation joinServer i nodes).2 = none →
      ∀ j (hj : j < nodes.length),
        entryDispatchOk p cp rotation joinServer (i + j) (nodes.get ⟨j, hj⟩) := by
  intro nodes
  induction nodes with
  | nil => intro i _ j hj; exact absurd hj (by simp)
  | cons node rest ih =>
    intro i hnone j hj
    unfold rotateNodesAux at hnone
    by_cases hrel : shouldRotateEntry rotation node = true
    · rw [if_pos hrel] at hnone
      split at hnone
      · simp at hnone
      · rename_i rotatePlan joinedServer heq
        split at hnone
        · split at hnone <;> simp at hnone
        · rename_i heq2
          match j, hj with
          | 0, _ =>
            intro _
            exact ⟨rotatePlan, joinedServer, heq, by simpa using heq2⟩
          | k + 1, hj =>
            have hh := ih (i + 1) hnone k (by simpa using Nat.lt_of_succ_lt_succ hj)
            have harith : i + 1 + k = i + (k + 1) := by omega
            rw [harith] at hh
            simpa using hh
    · rw [if_neg hrel] at hnone
      match j, hj with
      | 0, _ => intro hrel'; exact absurd hrel' hrel
      | k + 1, hj =>
        have hh := ih (i + 1) hnone k (by simpa using Nat.lt_of_succ_lt_succ hj)
        have harith : i + 1 + k = i + (k + 1) := by omega
        rw [harith] at hh
        simpa using hh

lemma rotateNodesAux_failure (p : Planner) (cp : RKEControlPlane)
    (rotation : RotateCertificates) (joinServer : String) (node : PlanEntry)
    (pl : NodePlan) (js e : String)
    (hrel : shouldRotateEntry rotation node = true)
    (hcomp : rotateCertificatesPlan p.gen p.manifestRemoval cp rotation node joinServer =
      .ok (pl, js)) :
    ∀ (pre post : List PlanEntry) (i : Nat),
      (∀ j (hj : j < pre.length),
        entryDispatchOk p cp rotation joinServer (i + j) (pre.get ⟨j, hj⟩)) →
      p.assign (i + pre.length) node pl js = some e →
      (rotateNodesAux p cp rotation joinServer i (pre ++ node :: post)).2 =
        some (.err (match p.pause true with | some pauseErr => pauseErr | none => e)) ∧
      (rotateNodesAux p cp rotation joinServer i (pre ++ node :: post)).1.getLast? =
        some (.paused true) ∧
      ∀ k, Event.dispatched k ∈
          (rotateNodesAux p cp rotation joinServer i (pre ++ node :: post)).1 →
        k ≤ i + pre.length := by
  intro pre
  induction pre with
  | nil =>
    intro post i _ hfail
    simp only [List.length_nil, Nat.add_zero] at hfail
    simp only [List.nil_append, List.length_nil, Nat.add_zero]
    unfold rotateNodesAux
    rw [if_pos hrel]
    split
    · rename_i e2 heq
      rw [hcomp] at heq
      exact absurd heq (by simp)
    · rename_i rotatePlan joinedServer heq
      rw [hcomp] at heq
      injection heq with heq1
      cases heq1
      rw [hfail]
      cases hp : p.pause true with
      | some pauseErr =>
        refine ⟨rfl, rfl, ?_⟩
        intro k hk
        simp at hk
        omega
      | none =>
        refine ⟨rfl, rfl, ?_⟩
        intro k hk
        simp at hk
        omega
  | cons q pre' ih =>
    intro post i h hfail
    have hshift : ∀ j (hj : j < pre'.length),
        entryDispatchOk p cp rotation joinServer (i + 1 + j) (pre'.get ⟨j, hj⟩) := by
      intro j hj
      have hh := h (j + 1) (by simpa using Nat.succ_lt_succ hj)
      have harith : i + (j + 1) = i + 1 + j := by omega
      rw [harith] at hh
      simpa using hh
    have hfail' : p.assign (i + 1 + pre'.length) node pl js = some e := by
      have harith : i + (q :: pre').length = i + 1 + pre'.length := by simp; omega
      rw [harith] at hfail
      exact hfail
    simp only [List.cons_append]
    unfold rotateNodesAux
    by_cases hrelq : shouldRotateEntry rotation q = true
    · rw [if_pos hrelq]
      obtain ⟨plq, jsq, hcompq0, hassignq0⟩ := h 0 (by simp) hrelq
      have hcompq : rotateCertificatesPlan p.gen p.manifestRemoval cp rotation q
          joinServer = Except.ok (plq, jsq) := hcompq0
      have hassignq : p.assign i q plq jsq = none := hassignq0
      split
      · rename_i e2 heq
        rw [hcompq] at heq
        exact absurd heq (by simp)
      · rename_i rotatePlan joinedServer heq
        rw [hcompq] at heq
        injection heq with heq1
        cases heq1
        rw [hassignq]
        obtain ⟨ih1, ih2, ih3⟩ := ih post (i + 1) hshift hfail'
        refine ⟨ih1, ?_, ?_⟩
        · show List.getLast? (Event.dispatched i ::
              (rotateNodesAux p cp rotation joinServer (i + 1) (pre' ++ node :: post)).1) =
            some (Event.paused true)
          cases hr : (rotateNodesAux p cp rotation joinServer (i + 1)
              (pre' ++ node :: post)).1 with
          | nil => rw [hr] at ih2; simp at ih2
          | cons x xs =>
            rw [hr] at ih2
            rw [List.getLast?_cons_cons]
            exact ih2
        · intro k hk
          rcases List.mem_cons.mp hk with hk | hk
          · injection hk with hki
            subst hki
            simp only [List.length_cons]
            omega
          · have hk3 := ih3 k hk
            simp only [List.length_cons]
            omega
    · rw [if_neg hrelq]
      obtain ⟨ih1, ih2, ih3⟩ := ih post (i + 1) hshift hfail'
      refine ⟨ih1, ih2, ?_⟩
      intro k hk
      have hk3 := ih3 k hk
      simp only [List.length_cons]
      omega

/-- C7: whenever dispatching a plan to a node fails, the orchestrator's last
action is the pause-true call, the status comes back untouched, no node after
the failing one is dispatched to, and the returned error is the dispatch error
— or the pause error instead exactly when the pause call itself failed. -/
theorem rotateCertificates_dispatch_failure
    (p : Planner) (cp : RKEControlPlane) (status : RKEControlPlaneStatus)
    (rotation : RotateCertificates) (joinServer : String)
    (pre post : List PlanEntry) (node : PlanEntry) (pl : NodePlan) (js e : String)
    (hsr : shouldRotate cp = true)
    (hrc : cp.spec.rotateCertificates = some rotation)
    (hinit : p.findInitNode = .ok (true, joinServer))
    (hjs : joinServer ≠ "")
    (hnodes : p.nodes = pre ++ node :: post)
    (hpre : ∀ j (hj : j < pre.length),
      entryDispatchOk p cp rotation joinServer j (pre.get ⟨j, hj⟩))
    (hrel : shouldRotateEntry rotation node = true)
    (hcomp : rotateCertificatesPlan p.gen p.manifestRemoval cp rotation node joinServer =
      .ok (pl, js))
    (hfail : p.assign pre.length node pl js = some e) :
    (rotateCertificates p cp status).status = status ∧
    (rotateCertificates p cp status).result =
      .err (match p.pause true with | some pauseErr => pauseErr | none => e) ∧
    (rotateCertificates p cp status).events.getLast? = some (.paused true) ∧
    ∀ k, Event.dispatched k ∈ (rotateCertificates p cp status).events → k ≤ pre.length := by
  obtain ⟨h1, h2, h3⟩ := rotateNodesAux_failure p cp rotation joinServer node pl js e hrel
    hcomp pre post 0 (fun j hj => by simpa using hpre j hj) (by simpa using hfail)
  have houtcome : rotateCertificates p cp status =
      ⟨status, .err (match p.pause true with | some pauseErr => pauseErr | none => e),
        (rotateNodesAux p cp rotation joinServer 0 (pre ++ node :: post)).1⟩ := by
    unfold rotateCertificates
    rw [if_neg (by rw [hsr]; simp)]
    split
    · rename_i e2 heq
      rw [hinit] at heq
      exact absurd heq (by simp)
    · rename_i found joinServer2 heq
      rw [hinit] at heq
      injection heq with heq1
      injection heq1 with hf hj2
      subst hj2
      cases hf
      rw [if_neg (by simp [hjs])]
      split
      · rename_i heq2
        rw [hrc] at heq2
        exact absurd heq2 (by simp)
      · rename_i rotation2 heq2
        rw [hrc] at heq2
        injection heq2 with heq3
        subst heq3
        rw [hnodes]
        split
        · rename_i result heqr
          rw [h1] at heqr
          injection heqr with heqr1
          subst heqr1
          rfl
        · rename_i heqr
          rw [h1] at heqr
          exact absurd heqr (by simp)
  refine ⟨by rw [houtcome], by rw [houtcome], by rw [houtcome]; exact h2, ?_⟩
  intro k hk
  rw [houtcome] at hk
  have := h3 k hk
  omega

/-- C8: when rotation is due and every eligible node dispatches successfully,
the orchestrator's last action is the unpause call, the returned status
carries the requested generation, and the returned result is the non-fatal
`errWaiting` sentinel. -/
theorem rotateCertificates_full_success
    (p : Planner) (cp : RKEControlPlane) (status : RKEControlPlaneStatus)
    (rotation : RotateCertificates) (joinServer : String)
    (hsr : shouldRotate cp = true)
    (hrc : cp.spec.rotateCertificates = some rotation)
    (hinit : p.findInitNode = .ok (true, joinServer))
    (hjs : joinServer ≠ "")
    (hall : ∀ j (hj : j < p.nodes.length),
      entryDispatchOk p cp rotation joinServer j (p.nodes.get ⟨j, hj⟩))
    (hunpause : p.pause false = none) :
    (rotateCertificates p cp status).status =
      { status with certificateRotationGeneration := rotation.generation } ∧
    (rotateCertificates p cp status).result = .waiting "certificate rotation done" ∧
    (rotateCertificates p cp status).events.getLast? = some (.paused false) := by
  have hnone := rotateNodesAux_none_of_all_ok p cp rotation joinServer p.nodes 0
    (fun j hj => by simpa using hall j hj)
  have houtcome : rotateCertificates p cp status =
      ⟨{ status with certificateRotationGeneration := rotation.generation },
        .waiting "certificate rotation done",
        (rotateNodesAux p cp rotation joinServer 0 p.nodes).1 ++ [.paused false]⟩ := by
    unfold rotateCertificates
    rw [if_neg (by rw [hsr]; simp)]
    split
    · rename_i e2 heq
      rw [hinit] at heq
      exact absurd heq (by simp)
    · rename_i found joinServer2 heq
      rw [hinit] at heq
      injection heq with heq1
      injection heq1 with hf hj2
      subst hj2
      cases hf
      rw [if_neg (by simp [hjs])]
      split
      · rename_i heq2
        rw [hrc] at heq2
        exact absurd heq2 (by simp)
      · rename_i rotation2 heq2
        rw [hrc] at heq2
        injection heq2 with heq3
        subst heq3
        split
        · rename_i result heqr
          rw [hnone] at heqr
          exact absurd heqr (by simp)
        · rw [hunpause]
  refine ⟨by rw [houtcome], by rw [houtcome], ?_⟩
  rw [houtcome]
  exact List.getLast?_concat _

/-- C9: on every return path other than full success the returned status is
the input status unchanged; the generation field is assigned exactly when a
rotation request was present, an init node was found, every eligible node
dispatched successfully and the unpause call succeeded — and then the
`errWaiting` sentinel is returned. -/
theorem rotateCertificates_generation_only_on_success
    (p : Planner) (cp : RKEControlPlane) (status : RKEControlPlaneStatus) :
    (rotateCertificates p cp status).status = status ∨
    ∃ rotation joinServer,
      cp.spec.rotateCertificates = some rotation ∧
      p.findInitNode = .ok (true, joinServer) ∧ joinServer ≠ "" ∧
      (∀ j (hj : j < p.nodes.length),
        entryDispatchOk p cp rotation joinServer j (p.nodes.get ⟨j, hj⟩)) ∧
      p.pause false = none ∧
      (rotateCertificates p cp status).status =
        { status with certificateRotationGeneration := rotation.generation } ∧
      (rotateCertificates p cp status).result = .waiting "certificate rotation done" := by
  unfold rotateCertificates
  split
  · left; rfl
  · split
    · left; rfl
    · rename_i found joinServer heq
      split
      · left; rfl
      · rename_i hcond
        split
        · left; rfl
        · rename_i rotation heq2
          split
          · left; rfl
          · rename_i heqr
            split
            · left; rfl
            · rename_i hpf
              have hfound : found = true := by
                cases found
                · exact absurd (Or.inl rfl) hcond
                · rfl
              subst hfound
              have hjs : joinServer ≠ "" := fun hj => hcond (Or.inr hj)
              right
              refine ⟨rotation, joinServer, heq2, heq, hjs, ?_, hpf, rfl, rfl⟩
              intro j hj
              have := rotateNodesAux_all_ok_of_none p cp rotation joinServer p.nodes 0
                heqr j hj
              simpa using this

/-- A concrete cluster with a pending full rotation at generation 1. -/
def rotationDueCP : RKEControlPlane := ⟨⟨some ⟨1, []⟩, "v1.26.4+k3s1"⟩, ⟨true, 0⟩⟩

/-- A concrete planner over three etcd nodes whose dispatch fails exactly for
the node at position 1. -/
def failingPlanner : Planner :=
  { findInitNode := .ok (true, "https://init:9345"),
    nodes := [⟨false, false, true⟩, ⟨false, false, true⟩, ⟨false, false, true⟩],
    gen := fun _ _ => .ok ⟨[], fun _ => []⟩,
    manifestRemoval := fun _ _ => none,
    assign := fun i _ _ _ => if i = 1 then some "dispatch failed" else none,
    pause := fun _ => none }

/-- A concrete planner over three etcd nodes where every dispatch succeeds. -/
def succeedingPlanner : Planner :=
  { findInitNode := .ok (true, "https://init:9345"),
    nodes := [⟨false, false, true⟩, ⟨false, false, true⟩, ⟨false, false, true⟩],
    gen := fun _ _ => .ok ⟨[], fun _ => []⟩,
    manifestRemoval := fun _ _ => none,
    assign := fun _ _ _ _ => none,
    pause := fun _ => none }

/-- Witness for C7: with the second of three dispatches failing, the status is
unchanged, the dispatch error propagates, the last action is pause-true, and
no node past position 1 was dispatched. -/
theorem rotateCertificates_dispatch_failure_witness :
    (rotateCertificates failingPlanner rotationDueCP ⟨true, 0⟩).status =
      (⟨true, 0⟩ : RKEControlPlaneStatus) ∧
    (rotateCertificates failingPlanner rotationDueCP ⟨true, 0⟩).result =
      .err "dispatch failed" ∧
    (rotateCertificates failingPlanner rotationDueCP ⟨true, 0⟩).events.getLast? =
      some (.paused true) ∧
    ∀ k, Event.dispatched k ∈ (rotateCertificates failingPlanner rotationDueCP
        ⟨true, 0⟩).events → k ≤ 1 := by
  obtain ⟨pl, js, hcomp⟩ : ∃ pl js,
      rotateCertificatesPlan failingPlanner.gen failingPlanner.manifestRemoval rotationDueCP
        ⟨1, []⟩ ⟨false, false, true⟩ "https://init:9345" = .ok (pl, js) := ⟨_, _, rfl⟩
  exact rotateCertificates_dispatch_failure failingPlanner rotationDueCP ⟨true, 0⟩
    ⟨1, []⟩ "https://init:9345"
    [⟨false, false, true⟩] [⟨false, false, true⟩] ⟨false, false, true⟩ pl js
    "dispatch failed"
    (by decide) rfl rfl (by decide) rfl
    (fun j hj => by
      match j, hj with
      | 0, _ => exact fun _ => ⟨_, _, rfl, rfl⟩
      | k + 1, hj => exact absurd hj (by simp))
    (by decide) hcomp rfl

/-- Witness for C8: with all three dispatches succeeding, the status advances
to generation 1, the `errWaiting` sentinel is returned and the last action is
the unpause call. -/
theorem rotateCertificates_full_success_witness :
    (rotateCertificates succeedingPlanner rotationDueCP ⟨true, 0⟩).status =
      (⟨true, 1⟩ : RKEControlPlaneStatus) ∧
    (rotateCertificates succeedingPlanner rotationDueCP ⟨true, 0⟩).result =
      .waiting "certificate rotation done" ∧
    (rotateCertificates succeedingPlanner rotationDueCP ⟨true, 0⟩).events.getLast? =
      some (.paused false) :=
  rotateCertificates_full_success succeedingPlanner rotationDueCP ⟨true, 0⟩
    ⟨1, []⟩ "https://init:9345" (by decide) rfl rfl (by decide)
    (fun j hj => by
      match j, hj with
      | 0, _ => exact fun _ => ⟨_, _, rfl, rfl⟩
      | 1, _ => exact fun _ => ⟨_, _, rfl, rfl⟩
      | 2, _ => exact fun _ => ⟨_, _, rfl, rfl⟩
      | k + 3, hj => exact absurd hj (by simp [succeedingPlanner]))
    rfl

example : replaceAll "kube-scheduler-arg" ".crt" ".key" = "kube-scheduler-arg" := by decide

example : replaceAll DefaultKubeControllerManagerCert ".crt" ".key" =
    "kube-controller-manager/kube-controller-manager.key" := by decide

example : getArgValue ["cert-dir=/x/y", "tls-cert-file=/z"] "cert-dir" "=" = "/x/y" := by
  decide

example : getArgValue ["cert-dir=/x/y"] "tls-cert-file" "=" = "" := by decide

example : GetRuntime "v1.26.4+k3s1" = "k3s" := by decide

example : GetRuntime "v1.26.4+rke2r1" = "rke2" := by decide

end CertRotation
